import Mathlib

/-!
# Verification of the sankey-sales graph assembler

A shallow embedding of `src/main.py`, which builds the node/link data of a
fixed financial Sankey diagram and exports it.

Modelling conventions:
* All monetary quantities in the source are decimal literals with at most
  three digits after the point (units: millions).  They are embedded as
  natural numbers in *milli-units* (the literal times 1000), so arithmetic
  is exact; `millisToRat` recovers the decimal value.
* Python string formatting `f"{v:.2f}"` on these values rounds the third
  decimal digit half-away-from-zero (checked against the reference
  interpreter for every value that occurs); `fmt2` implements this on the
  milli-unit representation.
* Fallible Python operations (indexing, `int(s, 16)`) are embedded as
  `Option`-returning functions; `none` models a raised exception.
-/

namespace SankeySales

/-- `PRODUCTS` dict from the source (insertion order preserved), values in
milli-units: iPhone 47.0, Mac 9.2, iPad 6.7, Wearables 9.377. -/
def PRODUCTS : List (String × ℕ) :=
  [("iPhone", 47000), ("Mac", 9200), ("iPad", 6700), ("Wearables", 9377)]

/-- `REVENUE = sum(PRODUCTS.values())`. -/
def REVENUE : ℕ := (PRODUCTS.map Prod.snd).sum

def COGS : ℕ := 44379
def GROSS_PROFIT : ℕ := 27898
def OPERATING_EXPENSES : ℕ := 20199
def OPERATING_PROFIT : ℕ := 7699
def NET_PROFIT : ℕ := 5638
def TAXES : ℕ := 2118
def OTHER : ℕ := 56
def INDUSTRIAL : ℕ := 6277
def COMMERCIAL : ℕ := 8038
def ADMINISTRATIVE : ℕ := 4069
def R_AND_D : ℕ := 10
def HEADQTR : ℕ := 936
def DEPRECIATION : ℕ := 868
def RAW_MATERIAL : ℕ := 37024
def LABOR_COSTS : ℕ := 5365
def OTHER_COGS : ℕ := 1990

/-- The milli-unit embedding of a source decimal, as a rational. -/
def millisToRat (v : ℕ) : ℚ := (v : ℚ) / 1000

/-- `COLORS` palette from the source. -/
def COLORS : List (String × String) :=
  [("blue", "#4A90D9"), ("green", "#27AE60"), ("red", "#C0392B")]

/-- Python dict access `COLORS[k]` (every key used is present, so the
default is never taken). -/
def colorOf (k : String) : String := (COLORS.lookup k).getD ""

/-- Python `f"{v:.2f}"` on a milli-unit value: round to centi-units
(half-away-from-zero, matching the reference interpreter on all occurring
values) and print with exactly two digits after the point. -/
def fmt2 (v : ℕ) : String :=
  let c := (v + 5) / 10
  let frac := c % 100
  toString (c / 100) ++ "." ++ (if frac < 10 then "0" ++ toString frac else toString frac)

/-- `node_data` from `build_sankey_data`: the 21 `(name, value)` pairs in
declaration order. -/
def node_data : List (String × ℕ) :=
  [ ("iPhone", (PRODUCTS.lookup "iPhone").getD 0),
    ("Mac", (PRODUCTS.lookup "Mac").getD 0),
    ("iPad", (PRODUCTS.lookup "iPad").getD 0),
    ("Wearables", (PRODUCTS.lookup "Wearables").getD 0),
    ("Revenue", REVENUE),
    ("Gross Profit", GROSS_PROFIT),
    ("COGS", COGS),
    ("Operating Profit", OPERATING_PROFIT),
    ("Operating Expenses", OPERATING_EXPENSES),
    ("Net Profit", NET_PROFIT),
    ("Taxes", TAXES),
    ("Other", OTHER),
    ("Industrial", INDUSTRIAL),
    ("Commercial", COMMERCIAL),
    ("Administrative", ADMINISTRATIVE),
    ("R & D", R_AND_D),
    ("Headqtr.", HEADQTR),
    ("Depreciation", DEPRECIATION),
    ("Raw Material", RAW_MATERIAL),
    ("Labor Costs", LABOR_COSTS),
    ("Other Costs", OTHER_COGS) ]

/-- `labels`: `f"<b>{name}</b><br><b>${value:.2f}M</b>"` for each node. -/
def labels : List String :=
  node_data.map fun p => "<b>" ++ p.1 ++ "</b><br><b>$" ++ fmt2 p.2 ++ "M</b>"

/-- `node_colors`: the per-node category color, in node order. -/
def node_colors : List String :=
  [ colorOf "blue", colorOf "blue", colorOf "blue", colorOf "blue",
    colorOf "blue",
    colorOf "green", colorOf "red",
    colorOf "green", colorOf "red",
    colorOf "green", colorOf "red", colorOf "green",
    colorOf "red", colorOf "red", colorOf "red",
    colorOf "red", colorOf "red", colorOf "red",
    colorOf "red", colorOf "red", colorOf "red" ]

/-- `links`: the 20 `(source_idx, target_idx, value)` triples. -/
def links : List (ℕ × ℕ × ℕ) :=
  [ (0, 4, (PRODUCTS.lookup "iPhone").getD 0),
    (1, 4, (PRODUCTS.lookup "Mac").getD 0),
    (2, 4, (PRODUCTS.lookup "iPad").getD 0),
    (3, 4, (PRODUCTS.lookup "Wearables").getD 0),
    (4, 5, GROSS_PROFIT),
    (4, 6, COGS),
    (5, 7, OPERATING_PROFIT),
    (5, 8, OPERATING_EXPENSES),
    (7, 9, NET_PROFIT),
    (7, 10, TAXES),
    (7, 11, OTHER),
    (8, 12, INDUSTRIAL),
    (8, 13, COMMERCIAL),
    (8, 14, ADMINISTRATIVE),
    (8, 15, R_AND_D),
    (8, 16, HEADQTR),
    (8, 17, DEPRECIATION),
    (6, 18, RAW_MATERIAL),
    (6, 19, LABOR_COSTS),
    (6, 20, OTHER_COGS) ]

def sources : List ℕ := links.map fun l => l.1

def targets : List ℕ := links.map fun l => l.2.1

def values : List ℕ := links.map fun l => l.2.2

/-- `str.lstrip("#")`: remove *every* leading `'#'`. -/
def stripHash (s : List Char) : List Char := s.dropWhile (fun c => c = '#')

/-- Whether `c` is a hexadecimal digit. -/
def isHexDigitCh (c : Char) : Bool :=
  ('0' ≤ c && c ≤ '9') || ('a' ≤ c && c ≤ 'f') || ('A' ≤ c && c ≤ 'F')

/-- Value of a hexadecimal digit. -/
def hexVal (c : Char) : ℕ :=
  if '0' ≤ c ∧ c ≤ '9' then c.toNat - '0'.toNat
  else if 'a' ≤ c ∧ c ≤ 'f' then c.toNat - 'a'.toNat + 10
  else c.toNat - 'A'.toNat + 10

/-- Python `int(s, 16)` restricted to plain digit strings: succeeds on a
nonempty all-hex-digit string, fails (raises `ValueError`) otherwise. -/
def pyIntHex (s : List Char) : Option ℕ :=
  if s ≠ [] ∧ s.all isHexDigitCh then
    some (s.foldl (fun a c => 16 * a + hexVal c) 0)
  else none

/-- Python slice `s[a:b]` (clamping, `a ≤ b`). -/
def pySlice (s : List Char) (a b : ℕ) : List Char := (s.take b).drop a

/-- The channel-extraction core of `hex_to_rgba`: strip leading `'#'`
markers, then parse slices `[0:2]`, `[2:4]`, `[4:6]` as hex bytes, in that
order, failing at the first slice that `int(·, 16)` rejects. -/
def hexToChannels (s : List Char) : Option (ℕ × ℕ × ℕ) :=
  (pyIntHex (pySlice (stripHash s) 0 2)).bind fun a =>
    (pyIntHex (pySlice (stripHash s) 2 4)).bind fun b =>
      (pyIntHex (pySlice (stripHash s) 4 6)).map fun c => (a, b, c)

/-- Python `str()` of a non-negative finite-decimal float given in
milli-units (only `0.5`, embedded as `500`, occurs in the program):
integer part, a point, then the fractional digits with trailing zeros
removed (`"0"` when the value is integral). -/
def pyFloatStr (a : ℕ) : String :=
  let f := a % 1000
  let fracStr :=
    if f = 0 then "0"
    else if f % 100 = 0 then toString (f / 100)
    else if f % 10 = 0 then (if f < 100 then "0" ++ toString (f / 10) else toString (f / 10))
    else if f < 10 then "00" ++ toString f
    else if f < 100 then "0" ++ toString f
    else toString f
  toString (a / 1000) ++ "." ++ fracStr

/-- `hex_to_rgba(hex_color, alpha)` from the source; `alpha` is a
finite-decimal float in milli-units (`0.5` is `500`). -/
def hex_to_rgba (hexColor : String) (alpha : ℕ) : Option String :=
  (hexToChannels hexColor.toList).map fun t =>
    "rgba(" ++ toString t.1 ++ ", " ++ toString t.2.1 ++ ", " ++ toString t.2.2
      ++ ", " ++ pyFloatStr alpha ++ ")"

/-- The dictionary returned by `build_sankey_data`. -/
structure SankeyData where
  labels : List String
  node_colors : List String
  sources : List ℕ
  targets : List ℕ
  values : List ℕ
  link_colors : List String
deriving DecidableEq

/-- `build_sankey_data()`: the link-color comprehension
`[hex_to_rgba(node_colors[t], 0.5) for t in targets]` raises on an
out-of-range index or a parse failure, modelled by `none`. -/
def build_sankey_data : Option SankeyData :=
  (targets.mapM fun t => (node_colors.get? t).bind fun c => hex_to_rgba c 500).map
    fun lcs =>
      { labels := labels
        node_colors := node_colors
        sources := sources
        targets := targets
        values := values
        link_colors := lcs }

/-- Sum of the values of the links flowing into node `n`. -/
def inflow (n : ℕ) : ℕ := ((links.filter fun l => l.2.1 = n).map fun l => l.2.2).sum

/-- Sum of the values of the links flowing out of node `n`. -/
def outflow (n : ℕ) : ℕ := ((links.filter fun l => l.1 = n).map fun l => l.2.2).sum

/-- The files `main()` writes for a given `OUTPUT_FORMAT` and
`OUTPUT_NAME`: `<name>.html` if the format is in `("html", "both")`, then
`<name>.png` if it is in `("png", "both")`. -/
def exportFiles (fmt name : String) : List String :=
  (if fmt = "html" ∨ fmt = "both" then [name ++ ".html"] else []) ++
    (if fmt = "png" ∨ fmt = "both" then [name ++ ".png"] else [])

/-- `OUTPUT_DIR.mkdir(exist_ok=True)` as a state update on the list of
existing directories: creates the directory if absent and never raises
`FileExistsError` when it is already present. -/
def mkdirExistOk (dirs : List String) (d : String) : List String :=
  if d ∈ dirs then dirs else dirs ++ [d]

def OUTPUT_NAME : String := "sankey_chart"

def OUTPUT_DIR : String := "output"

/-- Whether a formatted number has exactly two digits after its (unique)
decimal point: the string ends in point-digit-digit and contains a single
point. -/
def twoDecimals (s : String) : Bool :=
  (match s.toList.reverse with
    | d1 :: d2 :: p :: _ => d1.isDigit && d2.isDigit && p = '.'
    | _ => false) &&
    s.toList.count '.' = 1

end SankeySales

namespace SankeySales

lemma stripHash_stripHash (s : List Char) : stripHash (stripHash s) = stripHash s := by
  unfold stripHash
  exact List.dropWhile_idempotent _ _

lemma stripHash_cons_of_hex (c : Char) (cs : List Char) (hc : isHexDigitCh c = true) :
    stripHash (c :: cs) = c :: cs := by
  have hne : ¬ (c = '#') := by
    intro e
    rw [e] at hc
    exact absurd hc (by decide)
  simp [stripHash, List.dropWhile_cons, hne]

lemma pyIntHex_isSome (s : List Char) (hne : s ≠ []) (hall : s.all isHexDigitCh = true) :
    (pyIntHex s).isSome = true := by
  simp [pyIntHex, hne, hall]

lemma hexToChannels_none_of_short (s : List Char) (h : (stripHash s).length < 5) :
    hexToChannels s = none := by
  have h3 : pySlice (stripHash s) 4 6 = [] := by
    apply List.drop_eq_nil_of_le
    rw [List.length_take]
    omega
  unfold hexToChannels
  rw [h3]
  cases pyIntHex (pySlice (stripHash s) 0 2) <;>
    cases pyIntHex (pySlice (stripHash s) 2 4) <;> rfl

lemma hex_to_rgba_none_of_short (s : String) (a : ℕ) (h : (stripHash s.toList).length < 5) :
    hex_to_rgba s a = none := by
  rw [hex_to_rgba, hexToChannels_none_of_short s.toList h]
  rfl

lemma slice_all_hex (r : List Char) (hhex : (r.take 6).all isHexDigitCh = true)
    (a b : ℕ) (hb : b ≤ 6) : (pySlice r a b).all isHexDigitCh = true := by
  rw [List.all_eq_true] at *
  intro x hx
  apply hhex
  have ht : r.take b = (r.take 6).take b := by
    rw [List.take_take, Nat.min_eq_left hb]
  have hx1 : x ∈ r.take b := List.drop_subset _ _ hx
  rw [ht] at hx1
  exact List.take_subset _ _ hx1

lemma pySlice_length (r : List Char) (a b : ℕ) :
    (pySlice r a b).length = min b r.length - a := by
  simp [pySlice, List.length_drop, List.length_take]

lemma hexToChannels_of_hex_prefix (s : List Char) (h6 : 6 ≤ (stripHash s).length)
    (hhex : ((stripHash s).take 6).all isHexDigitCh = true) :
    (hexToChannels s).isSome = true ∧
      hexToChannels s = hexToChannels ('#' :: (stripHash s).take 6) := by
  have hne6 : (stripHash s).take 6 ≠ [] := by
    have : ((stripHash s).take 6).length = 6 := by
      rw [List.length_take]
      omega
    intro e
    rw [e] at this
    simp at this
  have h2 : stripHash ((stripHash s).take 6) = (stripHash s).take 6 := by
    cases hc : (stripHash s).take 6 with
    | nil => exact absurd hc hne6
    | cons c cs =>
      apply stripHash_cons_of_hex
      rw [hc, List.all_cons, Bool.and_eq_true] at hhex
      exact hhex.1
  have h12 : stripHash ('#' :: (stripHash s).take 6) = (stripHash s).take 6 := by
    have : stripHash ('#' :: (stripHash s).take 6) = stripHash ((stripHash s).take 6) := by
      simp [stripHash, List.dropWhile_cons]
    rw [this, h2]
  have e1 : pySlice ((stripHash s).take 6) 0 2 = pySlice (stripHash s) 0 2 := by
    unfold pySlice
    rw [List.take_take]
    norm_num
  have e2 : pySlice ((stripHash s).take 6) 2 4 = pySlice (stripHash s) 2 4 := by
    unfold pySlice
    rw [List.take_take]
    norm_num
  have e3 : pySlice ((stripHash s).take 6) 4 6 = pySlice (stripHash s) 4 6 := by
    unfold pySlice
    rw [List.take_take]
    norm_num
  have ne1 : pySlice (stripHash s) 0 2 ≠ [] := by
    have := pySlice_length (stripHash s) 0 2
    intro e
    rw [e] at this
    simp at this
    omega
  have ne2 : pySlice (stripHash s) 2 4 ≠ [] := by
    have := pySlice_length (stripHash s) 2 4
    intro e
    rw [e] at this
    simp at this
    omega
  have ne3 : pySlice (stripHash s) 4 6 ≠ [] := by
    have := pySlice_length (stripHash s) 4 6
    intro e
    rw [e] at this
    simp at this
    omega
  have s1 := pyIntHex_isSome _ ne1 (slice_all_hex _ hhex 0 2 (by norm_num))
  have s2 := pyIntHex_isSome _ ne2 (slice_all_hex _ hhex 2 4 (by norm_num))
  have s3 := pyIntHex_isSome _ ne3 (slice_all_hex _ hhex 4 6 (by norm_num))
  obtain ⟨v1, hv1⟩ := Option.isSome_iff_exists.mp s1
  obtain ⟨v2, hv2⟩ := Option.isSome_iff_exists.mp s2
  obtain ⟨v3, hv3⟩ := Option.isSome_iff_exists.mp s3
  constructor
  · rw [hexToChannels, hv1, hv2, hv3]
    rfl
  · unfold hexToChannels
    rw [h12, e1, e2, e3]

/-- C1 counterexample: the assembled edge list has 20 entries, not 19 as
the claim states (4 product edges, 2 from Revenue, 2 from Gross Profit, 3
from Operating Profit, 6 from Operating Expenses, 3 from COGS). -/
theorem claim1_graph_shape_cex :
    links.length = 20 ∧ ¬ links.length = 19 := by
  decide

/-- C1 (amended): `build_sankey_data` produces exactly 21 nodes and 20
links, the nodes in the fixed declaration order (products, revenue, then
each breakdown level outward) and the links referencing nodes by position
index. -/
theorem claim1_graph_shape :
    node_data.length = 21 ∧ links.length = 20 ∧
    (build_sankey_data.map fun d => (d.labels.length, d.link_colors.length)) =
      some (21, 20) ∧
    node_data.map Prod.fst =
      ["iPhone", "Mac", "iPad", "Wearables", "Revenue", "Gross Profit", "COGS",
        "Operating Profit", "Operating Expenses", "Net Profit", "Taxes", "Other",
        "Industrial", "Commercial", "Administrative", "R & D", "Headqtr.",
        "Depreciation", "Raw Material", "Labor Costs", "Other Costs"] ∧
    links.map (fun l => (l.1, l.2.1)) =
      [(0, 4), (1, 4), (2, 4), (3, 4), (4, 5), (4, 6), (5, 7), (5, 8), (7, 9),
        (7, 10), (7, 11), (8, 12), (8, 13), (8, 14), (8, 15), (8, 16), (8, 17),
        (6, 18), (6, 19), (6, 20)] := by
  decide

/-- C2 counterexample: conservation of flow fails at the Operating Profit
node (index 7): 7.699 flows in but 5.638 + 2.118 + 0.056 = 7.812 flows
out, so the literal data is not balanced at every internal node. -/
theorem claim2_flow_balance_cex :
    ¬ (inflow 7 = outflow 7 ∧ inflow 8 = outflow 8) := by
  decide

/-- C2 (amended): conservation of flow holds at Revenue (4), Gross Profit
(5) and COGS (6), but fails at Operating Profit (7), where 7.699 enters
and 7.812 leaves, and at Operating Expenses (8), where 20.199 enters and
20.198 leaves. -/
theorem claim2_flow_balance :
    inflow 4 = outflow 4 ∧ inflow 5 = outflow 5 ∧ inflow 6 = outflow 6 ∧
    inflow 7 = 7699 ∧ outflow 7 = 7812 ∧ inflow 8 = 20199 ∧ outflow 8 = 20198 := by
  decide

/-- C3 counterexample: the stripped remainder of `"#4A90D"` has 5
characters, not 6, yet the conversion succeeds (Python parses the
one-character slice `"D"` as the blue byte 13) instead of failing. -/
theorem claim3_hex_validation_cex :
    (stripHash ("#4A90D".toList)).length = 5 ∧
    hex_to_rgba "#4A90D" 500 = some "rgba(74, 144, 13, 0.5)" := by
  decide

/-- C3 (amended): `hex_to_rgba("#4A90D9", 0.5)` yields exactly the
channels (74, 144, 217) at alpha 0.5, and the conversion fails for every
input whose stripped remainder is shorter than 5 characters; but a
5-hex-digit remainder succeeds with a one-digit blue byte, so failure is
not exactly at "not 6 hex digits". -/
theorem claim3_hex_validation :
    hex_to_rgba "#4A90D9" 500 = some "rgba(74, 144, 217, 0.5)" ∧
    (∀ (s : String) (a : ℕ),
      (stripHash s.toList).length < 5 → hex_to_rgba s a = none) ∧
    hex_to_rgba "#4A90D" 500 = some "rgba(74, 144, 13, 0.5)" := by
  refine ⟨by decide, ?_, by decide⟩
  intro s a h
  exact hex_to_rgba_none_of_short s a h

/-- C3 witness: the theorem applied at the concrete too-short input
`"#4A"`. -/
theorem claim3_hex_validation_witness :
    (stripHash ("#4A".toList)).length < 5 ∧ hex_to_rgba "#4A" 500 = none :=
  ⟨by decide, claim3_hex_validation.2.1 "#4A" 500 (by decide)⟩

/-- C4: the derived revenue equals the sum of the four product figures,
and with the literal inputs that sum is exactly 72.277 (values embedded in
milli-units; `millisToRat` recovers the decimal). -/
theorem claim4_revenue_sum :
    REVENUE = (PRODUCTS.map Prod.snd).sum ∧
    millisToRat REVENUE = 47.0 + 9.2 + 6.7 + 9.377 ∧
    millisToRat REVENUE = 72.277 := by
  refine ⟨rfl, ?_, ?_⟩ <;> norm_num [millisToRat, REVENUE, PRODUCTS]

/-- C5: the stored link colors are exactly the alpha-0.5 renderings of
the category color of the target node of each link, and every target carrying the
cost color `#C0392B` yields `rgba(192, 57, 43, 0.5)`. -/
theorem claim5_link_colors :
    build_sankey_data.map SankeyData.link_colors =
      (targets.mapM fun t => hex_to_rgba (node_colors.getD t "") 500) ∧
    (∀ t ∈ targets, node_colors.getD t "" = "#C0392B" →
      hex_to_rgba (node_colors.getD t "") 500 = some "rgba(192, 57, 43, 0.5)") := by
  decide

/-- C5 witness: the theorem applied at the concrete target index 6 (the
COGS node, whose color is the cost color). -/
theorem claim5_link_colors_witness :
    6 ∈ targets ∧ node_colors.getD 6 "" = "#C0392B" ∧
    hex_to_rgba (node_colors.getD 6 "") 500 = some "rgba(192, 57, 43, 0.5)" :=
  ⟨by decide, by decide, claim5_link_colors.2 6 (by decide) (by decide)⟩

/-- C6: every one of the 21 node labels is the name of the node, a line break,
then the value formatted with exactly two decimal digits between a dollar
sign and an M, all bolded (markup `<b>...</b><br><b>$...M</b>`). -/
theorem claim6_labels :
    (build_sankey_data.map fun d => d.labels) =
      some (node_data.map fun p => "<b>" ++ p.1 ++ "</b><br><b>$" ++ fmt2 p.2 ++ "M</b>") ∧
    labels =
      ["<b>iPhone</b><br><b>$47.00M</b>", "<b>Mac</b><br><b>$9.20M</b>",
        "<b>iPad</b><br><b>$6.70M</b>", "<b>Wearables</b><br><b>$9.38M</b>",
        "<b>Revenue</b><br><b>$72.28M</b>", "<b>Gross Profit</b><br><b>$27.90M</b>",
        "<b>COGS</b><br><b>$44.38M</b>", "<b>Operating Profit</b><br><b>$7.70M</b>",
        "<b>Operating Expenses</b><br><b>$20.20M</b>", "<b>Net Profit</b><br><b>$5.64M</b>",
        "<b>Taxes</b><br><b>$2.12M</b>", "<b>Other</b><br><b>$0.06M</b>",
        "<b>Industrial</b><br><b>$6.28M</b>", "<b>Commercial</b><br><b>$8.04M</b>",
        "<b>Administrative</b><br><b>$4.07M</b>", "<b>R & D</b><br><b>$0.01M</b>",
        "<b>Headqtr.</b><br><b>$0.94M</b>", "<b>Depreciation</b><br><b>$0.87M</b>",
        "<b>Raw Material</b><br><b>$37.02M</b>", "<b>Labor Costs</b><br><b>$5.37M</b>",
        "<b>Other Costs</b><br><b>$1.99M</b>"] ∧
    (node_data.all fun p => twoDecimals (fmt2 p.2)) = true := by
  decide

/-- C7: with format "html" the exporter writes exactly one `.html` file
and no `.png`; with "both" exactly one of each; and creating the output
directory a second time is a no-op that does not fail. -/
theorem claim7_export :
    (exportFiles "html" OUTPUT_NAME).countP (fun f => ".html".toList.isSuffixOf f.toList) = 1 ∧
    (exportFiles "html" OUTPUT_NAME).countP (fun f => ".png".toList.isSuffixOf f.toList) = 0 ∧
    (exportFiles "both" OUTPUT_NAME).countP (fun f => ".html".toList.isSuffixOf f.toList) = 1 ∧
    (exportFiles "both" OUTPUT_NAME).countP (fun f => ".png".toList.isSuffixOf f.toList) = 1 ∧
    ∀ dirs : List String,
      mkdirExistOk (mkdirExistOk dirs OUTPUT_DIR) OUTPUT_DIR =
        mkdirExistOk dirs OUTPUT_DIR := by
  refine ⟨by decide, by decide, by decide, by decide, ?_⟩
  intro dirs
  unfold mkdirExistOk
  by_cases h : OUTPUT_DIR ∈ dirs
  · simp [h]
  · simp [h]

/-- C8: the source index and target index of every link is a valid position in the
21-entry node list, the source index is strictly below the target index
(so the edge relation is acyclic), and the per-edge color lookup
`node_colors[t]` is always in bounds. -/
theorem claim8_indices :
    node_colors.length = 21 ∧
    (links.all fun l => decide (l.1 < 21) && decide (l.2.1 < 21) &&
      decide (l.1 < l.2.1)) = true ∧
    (targets.all fun t => (node_colors.get? t).isSome) = true := by
  decide

/-- C9: `hex_to_rgba` strips every leading `'#'` (not just one), and any
input whose stripped remainder begins with six hex digits succeeds,
parsing only those six characters and silently ignoring the rest — e.g.
the 8-digit `"#4A90D9FF"` yields the same color as `"#4A90D9"`. -/
theorem claim9_hex_lenient :
    (∀ s : List Char, hexToChannels s = hexToChannels (stripHash s)) ∧
    (∀ (s : String) (a : ℕ), 6 ≤ (stripHash s.toList).length →
      ((stripHash s.toList).take 6).all isHexDigitCh = true →
      (hex_to_rgba s a).isSome = true ∧
        hex_to_rgba s a =
          hex_to_rgba (String.mk ('#' :: (stripHash s.toList).take 6)) a) ∧
    hex_to_rgba "#4A90D9FF" 500 = some "rgba(74, 144, 217, 0.5)" ∧
    hex_to_rgba "##4A90D9" 500 = hex_to_rgba "#4A90D9" 500 := by
  refine ⟨?_, ?_, by decide, by decide⟩
  · intro s
    unfold hexToChannels
    rw [stripHash_stripHash]
  · intro s a h6 hhex
    obtain ⟨hs, he⟩ := hexToChannels_of_hex_prefix s.toList h6 hhex
    constructor
    · unfold hex_to_rgba
      cases ho : hexToChannels s.toList with
      | none =>
        rw [ho] at hs
        simp at hs
      | some v =>
        rfl
    · unfold hex_to_rgba
      rw [he]
      rfl

/-- C9 witness: the theorem applied at the concrete 8-hex-digit input
`"#4A90D9FF"`. -/
theorem claim9_hex_lenient_witness :
    (hex_to_rgba "#4A90D9FF" 500).isSome = true ∧
    hex_to_rgba "#4A90D9FF" 500 =
      hex_to_rgba (String.mk ('#' :: (stripHash ("#4A90D9FF".toList)).take 6)) 500 :=
  claim9_hex_lenient.2.1 "#4A90D9FF" 500 (by decide) (by decide)

/-- C10: the parallel lists of the returned dictionary are consistent: labels
and node colors both have the node-list length 21, and sources, targets,
values and link colors all have the link-list length 20. -/
theorem claim10_parallel_lists :
    (build_sankey_data.map fun d =>
        (d.labels.length, d.node_colors.length, d.sources.length,
          d.targets.length, d.values.length, d.link_colors.length)) =
      some (21, 21, 20, 20, 20, 20) ∧
    node_data.length = 21 ∧ links.length = 20 := by
  decide
